import Mathlib

/-!
Verification of the ant-colony simulation core (grid pheromone fields,
food clusters, ant decision policy) against its specification.

The Python source is shallowly embedded: Python floats are modelled as
rationals, 2-dimensional arrays as total functions over integer grid
coordinates (only in-bounds entries are ever observed through the bounded
accessors, mirroring the code), and in-place mutation as explicit state
passing.  Randomness is modelled by passing the sampled outcome (an index
into the candidate list) as an explicit parameter; transcendental functions
(math.exp) are modelled by an abstract parameter constrained only by
properties true of the float implementation.
-/

namespace AntSim

/-- Configuration constants, from src/config.py (class Config).  The constants
NEST_PHEROMONE_RADIUS and NEST_RADIUS are referenced by src/grid.py and
src/ant.py but are absent from src/config.py; they are kept as unconstrained
fields here. -/
structure Config where
  evaporation_rate : ℚ
  diffusion_rate : ℚ
  pheromone_max_strength : ℚ
  nest_pheromone_radius : ℚ
  nest_radius : ℚ

/-- A food unit on a cell, from src/food.py (class Food). -/
structure Food where
  col : ℤ
  row : ℤ
  amount : ℤ
deriving DecidableEq

/-- A food cluster, from src/food.py (class FoodCluster).  Fields that only
feed the pygame rendering layer or the random membership generation
(density, gaussian_std, influence_radius_multiplier) are not needed by any
embedded operation and are omitted. -/
structure FoodCluster where
  grid_x : ℤ
  grid_y : ℤ
  radius : ℤ
  food_per_cell : ℤ
  food_cells : List (ℤ × ℤ)
  total_food : ℤ
  cluster_index : ℕ
deriving DecidableEq

/-- The grid, from src/grid.py (class Grid).  The per-cell arrays are total
functions on integer coordinates; the bounded accessors below reproduce the
source bounds checks, so out-of-bounds entries of these functions are never
observed.  The rendering-only state (cell_size, food_dropped counters) is
omitted. -/
structure Grid where
  cols : ℤ
  rows : ℤ
  pheromone_to_food : ℤ → ℤ → ℚ
  pheromone_to_nest : ℤ → ℤ → ℚ
  heuristic_to_food : ℤ → ℤ → ℚ
  heuristic_to_nest : ℤ → ℤ → ℚ
  foods : ℤ → ℤ → Option Food
  obstacles : ℤ → ℤ → Bool
  nest_position : Option (ℤ × ℤ)
  food_clusters : List FoodCluster

/-- Point update of a two-argument function (models writing one array cell). -/
def updateAt {α : Type} (f : ℤ → ℤ → α) (c r : ℤ) (v : α) : ℤ → ℤ → α :=
  fun c' r' => if c' = c ∧ r' = r then v else f c' r'

/-- Grid._in_bounds (src/grid.py line 535). -/
def Grid.in_bounds (g : Grid) (c r : ℤ) : Prop :=
  0 ≤ r ∧ r < g.rows ∧ 0 ≤ c ∧ c < g.cols

instance (g : Grid) (c r : ℤ) : Decidable (g.in_bounds c r) :=
  inferInstanceAs (Decidable (0 ≤ r ∧ r < g.rows ∧ 0 ≤ c ∧ c < g.cols))

/-- Grid.get_pheromone_to_food (src/grid.py line 125). -/
def Grid.get_pheromone_to_food (g : Grid) (c r : ℤ) : ℚ :=
  if g.in_bounds c r then g.pheromone_to_food c r else 0

/-- Grid.get_pheromone_to_nest (src/grid.py line 131). -/
def Grid.get_pheromone_to_nest (g : Grid) (c r : ℤ) : ℚ :=
  if g.in_bounds c r then g.pheromone_to_nest c r else 0

/-- Grid.get_heuristic_to_food (src/grid.py line 424). -/
def Grid.get_heuristic_to_food (g : Grid) (c r : ℤ) : ℚ :=
  if g.in_bounds c r then g.heuristic_to_food c r else 0

/-- Grid.get_heuristic_to_nest (src/grid.py line 430). -/
def Grid.get_heuristic_to_nest (g : Grid) (c r : ℤ) : ℚ :=
  if g.in_bounds c r then g.heuristic_to_nest c r else 0

/-- Grid.is_obstacle (src/grid.py line 382): out-of-bounds counts as an
obstacle. -/
def Grid.is_obstacle (g : Grid) (c r : ℤ) : Bool :=
  if g.in_bounds c r then g.obstacles c r else true

/-- Grid.get_food (src/grid.py line 357). -/
def Grid.get_food (g : Grid) (c r : ℤ) : Option Food :=
  if g.in_bounds c r then g.foods c r else none

/-- Grid.set_food (src/grid.py line 363). -/
def Grid.set_food (g : Grid) (c r : ℤ) (f : Option Food) : Grid × Bool :=
  if g.in_bounds c r then ({ g with foods := updateAt g.foods c r f }, true)
  else (g, false)

/-- Grid.remove_food (src/grid.py line 370). -/
def Grid.remove_food (g : Grid) (c r : ℤ) : Grid × Bool :=
  if g.in_bounds c r then ({ g with foods := updateAt g.foods c r none }, true)
  else (g, false)

/-- Grid.has_food (src/grid.py line 377): a cell has food iff get_food is not
None. -/
def Grid.has_food (g : Grid) (c r : ℤ) : Bool :=
  (g.get_food c r).isSome

/-- The pheromone kind argument of Grid.add_pheromone / Grid.set_pheromone. -/
inductive PType where
  | to_food
  | to_nest
deriving DecidableEq

/-- Grid.add_pheromone (src/grid.py line 137): adds (with no upper clamp) to
one pheromone field, returns False without writing when out of bounds. -/
def Grid.add_pheromone (g : Grid) (c r : ℤ) (p : PType) (strength : ℚ) :
    Grid × Bool :=
  if g.in_bounds c r then
    match p with
    | PType.to_food =>
        ({ g with pheromone_to_food :=
            updateAt g.pheromone_to_food c r (g.pheromone_to_food c r + strength) },
         true)
    | PType.to_nest =>
        ({ g with pheromone_to_nest :=
            updateAt g.pheromone_to_nest c r (g.pheromone_to_nest c r + strength) },
         true)
  else (g, false)

/-- The per-cell evaporation update of Grid.evaporate_pheromones
(src/grid.py lines 159-182): multiply by (1 - EVAPORATION_RATE), cap at
PHEROMONE_MAX_STRENGTH, floor values below 0.01 to exactly 0. -/
def evaporate_cell (cfg : Config) (v : ℚ) : ℚ :=
  if min (v * (1 - cfg.evaporation_rate)) cfg.pheromone_max_strength < 1/100 then 0
  else min (v * (1 - cfg.evaporation_rate)) cfg.pheromone_max_strength

/-- Grid.evaporate_pheromones (src/grid.py line 159): applies the per-cell
update to every in-bounds cell of both pheromone fields. -/
def Grid.evaporate_pheromones (cfg : Config) (g : Grid) : Grid :=
  { g with
    pheromone_to_food := fun c r =>
      if g.in_bounds c r then evaporate_cell cfg (g.pheromone_to_food c r)
      else g.pheromone_to_food c r
    pheromone_to_nest := fun c r =>
      if g.in_bounds c r then evaporate_cell cfg (g.pheromone_to_nest c r)
      else g.pheromone_to_nest c r }

/-- Membership in the nest region, from Grid._update_nest_cells
(src/grid.py lines 77-100): an in-bounds cell whose Euclidean distance to
the nest centre is at most NEST_PHEROMONE_RADIUS.  The source compares
sqrt(dx*dx + dy*dy) <= R; for R >= 0 this is equivalent to the squared
comparison used here, which stays in the rationals. -/
def Grid.is_nest_cell (g : Grid) (cfg : Config) (c r : ℤ) : Bool :=
  match g.nest_position with
  | none => false
  | some nest =>
      decide (g.in_bounds c r) &&
      decide ((((c - nest.1) ^ 2 + (r - nest.2) ^ 2 : ℤ) : ℚ) ≤ cfg.nest_pheromone_radius ^ 2)

/-- Grid._set_nest_pheromones (src/grid.py line 102): force both pheromone
fields to full strength on every nest cell.  Modelled from the spec: the
constant NEST_PHEROMONE_STRENGTH read here by src/grid.py is missing from
src/config.py; the spec pins nest cells to MAX_STRENGTH, so the write uses
pheromone_max_strength. -/
def Grid.set_nest_pheromones (g : Grid) (cfg : Config) : Grid :=
  { g with
    pheromone_to_food := fun c r =>
      if g.is_nest_cell cfg c r then cfg.pheromone_max_strength
      else g.pheromone_to_food c r
    pheromone_to_nest := fun c r =>
      if g.is_nest_cell cfg c r then cfg.pheromone_max_strength
      else g.pheromone_to_nest c r }

/-- The WEIGHT_MATRIX of Grid.diffuse_pheromones (src/grid.py lines 194-198),
as written in the source: the four diagonal offsets map to 2 and the four
orthogonal offsets map to 1 (the comment above it in the source claims the
opposite).  Offsets outside the eight keys get 0 (they never occur). -/
def weight_matrix (d : ℤ × ℤ) : ℚ :=
  if d = (-1, -1) then 2 else if d = (0, -1) then 1 else if d = (1, -1) then 2
  else if d = (-1, 0) then 1 else if d = (1, 0) then 1
  else if d = (-1, 1) then 2 else if d = (0, 1) then 1 else if d = (1, 1) then 2
  else 0

/-- The eight neighbour offsets iterated by the diffusion loop. -/
def neighbor_offsets : Finset (ℤ × ℤ) :=
  {(-1, -1), (0, -1), (1, -1), (-1, 0), (1, 0), (-1, 1), (0, 1), (1, 1)}

/-- total_weight = sum of the WEIGHT_MATRIX values (src/grid.py line 200). -/
def total_weight : ℚ := ∑ d ∈ neighbor_offsets, weight_matrix d

/-- Unfolds a sum over the eight neighbour offsets into its eight terms. -/
lemma sum_neighbor_offsets {M : Type} [AddCommMonoid M] (f : ℤ × ℤ → M) :
    ∑ d ∈ neighbor_offsets, f d =
      f (-1, -1) + (f (0, -1) + (f (1, -1) + (f (-1, 0) +
        (f (1, 0) + (f (-1, 1) + (f (0, 1) + f (1, 1))))))) := by
  unfold neighbor_offsets
  rw [Finset.sum_insert (by decide), Finset.sum_insert (by decide),
    Finset.sum_insert (by decide), Finset.sum_insert (by decide),
    Finset.sum_insert (by decide), Finset.sum_insert (by decide),
    Finset.sum_insert (by decide), Finset.sum_singleton]

/-- The total weight of the source WEIGHT_MATRIX is 12. -/
lemma total_weight_eq : total_weight = 12 := by
  rw [total_weight, sum_neighbor_offsets]
  norm_num [weight_matrix, -Prod.mk_one_one, Prod.mk.injEq]

/-- The value the diffusion pass writes into an in-bounds cell (c, r)
(src/grid.py lines 202-231).  The pass is computed into fresh zero arrays:
an obstacle cell neither keeps nor receives anything (it stays 0); a
non-obstacle cell keeps (1 - DIFFUSION_RATE) of its own value and receives
DIFFUSION_RATE * weight / total_weight of each in-bounds non-obstacle
neighbouring cell.  The sender of the contribution arriving through offset d
sits at (c - d.1, r - d.2). -/
def diffused_value (cfg : Config) (g : Grid) (v : ℤ → ℤ → ℚ) (c r : ℤ) : ℚ :=
  if g.obstacles c r then 0
  else
    (1 - cfg.diffusion_rate) * v c r +
      ∑ d ∈ neighbor_offsets,
        (if g.in_bounds (c - d.1) (r - d.2) ∧ g.obstacles (c - d.1) (r - d.2) = false then
          v (c - d.1) (r - d.2) * cfg.diffusion_rate * (weight_matrix d / total_weight)
        else 0)

/-- Grid.diffuse_pheromones (src/grid.py line 184): no-op when
DIFFUSION_RATE <= 0, otherwise both pheromone fields are replaced by the
freshly computed buffers (out-of-bounds entries of the fresh buffers are 0,
as in the source where the new arrays only have in-bounds entries). -/
def Grid.diffuse_pheromones (cfg : Config) (g : Grid) : Grid :=
  if cfg.diffusion_rate ≤ 0 then g
  else
    { g with
      pheromone_to_food := fun c r =>
        if g.in_bounds c r then diffused_value cfg g g.pheromone_to_food c r else 0
      pheromone_to_nest := fun c r =>
        if g.in_bounds c r then diffused_value cfg g g.pheromone_to_nest c r else 0 }

/-- Grid._update_pheromones (src/grid.py lines 236-253).  Modelled from the
spec where the source is broken: the body calls self._evaporate_pheromones()
and self._diffuse_pheromones(), methods that do not exist in src/ (the
defined methods are evaporate_pheromones and diffuse_pheromones, and a
comment says "Rename the old method"); the pass is modelled as the spec
describes it - evaporate if requested, diffuse if requested and
DIFFUSION_RATE > 0, then always re-pin the nest cells. -/
def Grid.update_pheromones (cfg : Config) (g : Grid)
    (should_evaporate should_diffuse : Bool) : Grid :=
  let g1 := if should_evaporate then g.evaporate_pheromones cfg else g
  let g2 := if should_diffuse ∧ 0 < cfg.diffusion_rate then g1.diffuse_pheromones cfg
            else g1
  g2.set_nest_pheromones cfg

/-- Replace the cluster stored at one index of the cluster list. -/
def Grid.set_cluster (g : Grid) (i : ℕ) (cl : FoodCluster) : Grid :=
  { g with food_clusters := g.food_clusters.set i cl }

/-- Grid.update_food_in_cluster (src/grid.py line 346): clamp-decrement the
total_food of the indexed cluster; the heuristic refresh in the source is
commented out, so the decrement is the whole effect. -/
def Grid.update_food_in_cluster (g : Grid) (ci : ℕ) (delta : ℤ) : Grid :=
  match g.food_clusters.get? ci with
  | some cl => g.set_cluster ci { cl with total_food := max 0 (cl.total_food + delta) }
  | none => g

/-- Food.take (src/food.py line 263): take up to the requested amount. -/
def Food.take (f : Food) (amount : ℤ) : Food × ℤ :=
  let actual_taken := min amount f.amount
  ({ f with amount := f.amount - actual_taken }, actual_taken)

/-- FoodCluster.take_food (src/food.py lines 205-221), for the cluster stored
at list position self_idx (the iterating caller's position, which is also
where the in-place mutations of self land).  If the cell holds food: take 1
unit from the Food object (visible in the grid map, which stores that
object), call Grid.update_food_in_cluster(self.cluster_index, -1), then
decrement self.total_food once more; when the object reaches 0, remove it
from the grid and drop the cell from self.food_cells. -/
def Grid.take_food (g : Grid) (self_idx : ℕ) (col row : ℤ) : Grid × ℤ :=
  match g.food_clusters.get? self_idx with
  | none => (g, 0)
  | some self =>
    match g.get_food col row with
    | none => (g, 0)
    | some food_obj =>
      if 0 < food_obj.amount then
        let taken := Food.take food_obj 1
        let g1 := { g with foods := updateAt g.foods col row (some taken.1) }
        if 0 < taken.2 then
          let g2 := g1.update_food_in_cluster self.cluster_index (-1)
          let g3 :=
            match g2.food_clusters.get? self_idx with
            | some s2 => g2.set_cluster self_idx { s2 with total_food := s2.total_food - 1 }
            | none => g2
          let g4 :=
            if taken.1.amount ≤ 0 then
              let g3r := (g3.remove_food col row).1
              match g3r.food_clusters.get? self_idx with
              | some s3 =>
                  g3r.set_cluster self_idx
                    { s3 with food_cells := s3.food_cells.erase (col, row) }
              | none => g3r
            else g3
          (g4, taken.2)
        else (g1, 0)
      else (g, 0)

/-- Claim C9: every accessor returns a neutral default on out-of-bounds
coordinates - is_obstacle returns true, the pheromone and heuristic getters
return 0, get_food returns None (so has_food reports false); no out-of-bounds
access fails. -/
theorem claim9_out_of_bounds (g : Grid) (c r : ℤ) (h : ¬ g.in_bounds c r) :
    g.is_obstacle c r = true ∧
    g.get_pheromone_to_food c r = 0 ∧
    g.get_pheromone_to_nest c r = 0 ∧
    g.get_heuristic_to_food c r = 0 ∧
    g.get_heuristic_to_nest c r = 0 ∧
    g.get_food c r = none ∧
    g.has_food c r = false := by
  simp [Grid.is_obstacle, Grid.get_pheromone_to_food, Grid.get_pheromone_to_nest,
    Grid.get_heuristic_to_food, Grid.get_heuristic_to_nest, Grid.get_food,
    Grid.has_food, h]

/-- A concrete all-empty 5 x 5 grid used by several witnesses. -/
def grid_z5 : Grid :=
  { cols := 5, rows := 5
    pheromone_to_food := fun _ _ => 0
    pheromone_to_nest := fun _ _ => 0
    heuristic_to_food := fun _ _ => 0
    heuristic_to_nest := fun _ _ => 0
    foods := fun _ _ => none
    obstacles := fun _ _ => false
    nest_position := some (2, 2)
    food_clusters := [] }

/-- Witness for claim C9 at the concrete out-of-bounds coordinate (500, 3). -/
theorem claim9_witness :
    ¬ grid_z5.in_bounds 500 3 ∧
    (grid_z5.is_obstacle 500 3 = true ∧
     grid_z5.get_pheromone_to_food 500 3 = 0 ∧
     grid_z5.get_pheromone_to_nest 500 3 = 0 ∧
     grid_z5.get_heuristic_to_food 500 3 = 0 ∧
     grid_z5.get_heuristic_to_nest 500 3 = 0 ∧
     grid_z5.get_food 500 3 = none ∧
     grid_z5.has_food 500 3 = false) :=
  ⟨by decide, claim9_out_of_bounds grid_z5 500 3 (by decide)⟩

/-- An ant, from src/ant.py (class Ant).  The source also accumulates
distance_traveled, a sum of Euclidean step lengths (1 or sqrt 2); that sum is
irrational, is read by no embedded operation and no claim, and is omitted.
The per-ant strength constants copy Config values that are missing from
src/config.py (PHEROMONE_MAX_DROP_STRENGTH, PHEROMONE_DECAY_RATE,
PHEROMONE_MIN_DROP_STRENGTH); they are unconstrained fields here. -/
structure Ant where
  col : ℤ
  row : ℤ
  has_food : Bool
  base_strength : ℚ
  current_strength : ℚ
  strength_decay_rate : ℚ
  min_strength : ℚ
  heading : Option (ℤ × ℤ)
  steps_taken : ℕ
  path : List (ℤ × ℤ)

/-- The (dc, dr) iteration order of Ant._get_valid_neighbors (src/ant.py
lines 64-80): dc outer, dr inner, skipping (0, 0). -/
def delta_list : List (ℤ × ℤ) :=
  [(-1, -1), (-1, 0), (-1, 1), (0, -1), (0, 1), (1, -1), (1, 0), (1, 1)]

/-- Ant._get_valid_neighbors (src/ant.py line 64): the in-bounds,
non-obstacle neighbours, each with its direction vector. -/
def Ant.get_valid_neighbors (a : Ant) (g : Grid) : List (ℤ × ℤ × ℤ × ℤ) :=
  delta_list.filterMap fun d =>
    let nc := a.col + d.1
    let nr := a.row + d.2
    if 0 ≤ nc ∧ nc < g.cols ∧ 0 ≤ nr ∧ nr < g.rows ∧ g.is_obstacle nc nr = false then
      some (nc, nr, d.1, d.2)
    else none

/-- The turning_patterns dict of Ant._get_allowed_neighbors (src/ant.py
lines 88-97); headings outside the eight keys yield [] (dict .get default). -/
def turning_patterns (h : ℤ × ℤ) : List (ℤ × ℤ) :=
  if h = (-1, -1) then [(-1, -1), (0, -1), (-1, 0)]
  else if h = (0, -1) then [(0, -1), (-1, -1), (1, -1)]
  else if h = (1, -1) then [(1, -1), (0, -1), (1, 0)]
  else if h = (-1, 0) then [(-1, 0), (-1, -1), (-1, 1)]
  else if h = (1, 0) then [(1, 0), (1, -1), (1, 1)]
  else if h = (-1, 1) then [(-1, 1), (0, 1), (-1, 0)]
  else if h = (0, 1) then [(0, 1), (-1, 1), (1, 1)]
  else if h = (1, 1) then [(1, 1), (0, 1), (1, 0)]
  else []

/-- Ant._get_allowed_neighbors (src/ant.py line 82).  The third component is
the squared Euclidean step length dx^2 + dy^2 (1 for orthogonal, 2 for
diagonal); the source stores sqrt of it, which is irrational for diagonals
and is observed by no claim. -/
def Ant.get_allowed_neighbors (a : Ant) (g : Grid) : List (ℤ × ℤ × ℤ) :=
  match a.heading with
  | none => (a.get_valid_neighbors g).map fun t => (t.1, t.2.1, t.2.2.1 ^ 2 + t.2.2.2 ^ 2)
  | some h =>
      (a.get_valid_neighbors g).filterMap fun t =>
        if (t.2.2.1, t.2.2.2) ∈ turning_patterns h then
          some (t.1, t.2.1, t.2.2.1 ^ 2 + t.2.2.2 ^ 2)
        else none

/-- The common candidate-move enumeration of move_random, move_with_heuristic
and move_aco (src/ant.py lines 132-144, 191-194, 253-257): the
heading-restricted set, falling back to the full valid set when it is
empty. -/
def Ant.allowed_or_valid_moves (a : Ant) (g : Grid) : List (ℤ × ℤ × ℤ) :=
  if (a.get_allowed_neighbors g).isEmpty then
    (a.get_valid_neighbors g).map fun t => (t.1, t.2.1, t.2.2.1 ^ 2 + t.2.2.2 ^ 2)
  else a.get_allowed_neighbors g

/-- The position/counter/heading update shared by every successful move
(src/ant.py lines 162-170, 217-228, 320-331).  The heading is updated from
the displacement (new minus pre-move position, which the source reads back
from the last two path entries) only when it is nonzero. -/
def Ant.apply_move (a : Ant) (m : ℤ × ℤ × ℤ) : Ant :=
  let dx := m.1 - a.col
  let dy := m.2.1 - a.row
  { a with
    col := m.1, row := m.2.1
    steps_taken := a.steps_taken + 1
    path := a.path ++ [(m.1, m.2.1)]
    heading := if dx = 0 ∧ dy = 0 then a.heading else some (dx, dy) }

/-- Ant.move_random (src/ant.py line 126).  The inverse-distance weights of
the source only shape the sampling distribution; every candidate has
positive weight, so the sampled outcome is modelled by the explicit index
pick (taken modulo the candidate count). -/
def Ant.move_random (a : Ant) (g : Grid) (pick : ℕ) : Ant × Bool :=
  match a.allowed_or_valid_moves g with
  | [] => (a, false)
  | mv :: rest => (a.apply_move ((mv :: rest).getD (pick % (mv :: rest).length) mv), true)

/-- Ant._deposit_pheromone (src/ant.py lines 464-478): a carrying ant
deposits to_food pheromone, a searching ant deposits to_nest pheromone, at
the ant cell with the current strength; the strength is then multiplied by
the decay rate and floored at the minimum. -/
def Ant.deposit_pheromone (a : Ant) (g : Grid) : Grid × Ant :=
  let g' :=
    if a.has_food then (g.add_pheromone a.col a.row PType.to_food a.current_strength).1
    else (g.add_pheromone a.col a.row PType.to_nest a.current_strength).1
  (g', { a with current_strength := max (a.current_strength * a.strength_decay_rate) a.min_strength })

/-- Ant._reset_strength (src/ant.py line 480). -/
def Ant.reset_strength (a : Ant) : Ant :=
  { a with current_strength := a.base_strength }

/-- Ant._reverse_direction (src/ant.py line 498). -/
def Ant.reverse_direction (a : Ant) : Ant :=
  { a with heading := a.heading.map fun h => (-h.1, -h.2) }

/-- Ant._at_nest (src/ant.py line 529): Euclidean distance to the nest
centre at most NEST_RADIUS; the source compares sqrt(dx*dx + dy*dy) <= R,
equivalent for R >= 0 to the squared comparison used here. -/
def Ant.at_nest (a : Ant) (cfg : Config) (g : Grid) : Bool :=
  match g.nest_position with
  | none => false
  | some nest =>
      decide ((((a.col - nest.1) ^ 2 + (a.row - nest.2) ^ 2 : ℤ) : ℚ) ≤ cfg.nest_radius ^ 2)

/-- Ant._drop_food (src/ant.py line 518): a carrying ant at the nest stops
carrying, resets its deposit strength to the base value and reverses its
heading. -/
def Ant.drop_food (a : Ant) (cfg : Config) (g : Grid) : Ant × Bool :=
  if a.has_food = true ∧ a.at_nest cfg g = true then
    (({ a with has_food := false }).reset_strength.reverse_direction, true)
  else (a, false)

/-- The cluster loop of Ant._pickup_food (src/ant.py lines 508-515):
iterate the cluster list by position; on the first cluster whose food_cells
contains the ant cell and whose take_food returns a positive amount, stop
with the mutated grid; otherwise keep scanning.  fuel is the number of
clusters left to scan (the list length at the call site). -/
def pickup_aux (col row : ℤ) : ℕ → ℕ → Grid → Option Grid
  | 0, _, _ => none
  | fuel + 1, i, g =>
    match g.food_clusters.get? i with
    | none => none
    | some cl =>
      if (col, row) ∈ cl.food_cells then
        let res := g.take_food i col row
        if 0 < res.2 then some res.1
        else pickup_aux col row fuel (i + 1) res.1
      else pickup_aux col row fuel (i + 1) g

/-- Ant._pickup_food (src/ant.py line 504): a non-carrying ant on a cell
with food takes one unit from the first cluster owning the cell, starts
carrying, resets its deposit strength and reverses its heading. -/
def Ant.pickup_food (a : Ant) (g : Grid) : Grid × Ant × Bool :=
  if a.has_food = false ∧ g.has_food a.col a.row = true then
    match pickup_aux a.col a.row g.food_clusters.length 0 g with
    | some g' => (g', ({ a with has_food := true }).reset_strength.reverse_direction, true)
    | none => (g, a, false)
  else (g, a, false)

/-- The drop-then-pickup preamble shared by move_with_heuristic and move_aco
(src/ant.py lines 179-184, 242-246): attempt to drop, then attempt to pick
up if (now) not carrying. -/
def Ant.drop_pickup_phase (a : Ant) (cfg : Config) (g : Grid) : Grid × Ant :=
  let d := a.drop_food cfg g
  let p := d.1.pickup_food g
  (p.1, p.2.1)

/-- The non-exploring movement step of Ant.move_aco (src/ant.py lines
252-333): enumerate candidates, deposit pheromone at the pre-move cell, then
move.  The score/softmax computation of lines 262-311 only shapes the
sampling distribution over the candidates (its probabilities are positive,
see softmax_probs below for the distribution itself), so the sampled outcome
is modelled by the explicit index pick. -/
def Ant.move_aco_move_phase (a : Ant) (g : Grid) (pick : ℕ) : Grid × Ant × Bool :=
  match a.allowed_or_valid_moves g with
  | [] => (g, a, false)
  | mv :: rest =>
    let chosen := (mv :: rest).getD (pick % (mv :: rest).length) mv
    let ga := a.deposit_pheromone g
    (ga.1, ga.2.apply_move chosen, true)

/-- The non-exploring movement step of Ant.move_with_heuristic (src/ant.py
lines 190-230): like the ACO one but with no pheromone deposit. -/
def Ant.move_heuristic_move_phase (a : Ant) (g : Grid) (pick : ℕ) : Grid × Ant × Bool :=
  match a.allowed_or_valid_moves g with
  | [] => (g, a, false)
  | mv :: rest => (g, a.apply_move ((mv :: rest).getD (pick % (mv :: rest).length) mv), true)

/-- Ant.move_aco (src/ant.py line 232): drop/pickup preamble, then either
the random exploration move (with probability explore_chance, modelled by
the explicit flag explore) or the pheromone-guided move. -/
def Ant.move_aco (a : Ant) (cfg : Config) (g : Grid) (explore : Bool) (pick : ℕ) :
    Grid × Ant × Bool :=
  let p := a.drop_pickup_phase cfg g
  if explore then
    let r := p.2.move_random p.1 pick
    (p.1, r.1, r.2)
  else p.2.move_aco_move_phase p.1 pick

/-- Ant.move_with_heuristic (src/ant.py line 174): same skeleton, no
deposits. -/
def Ant.move_with_heuristic (a : Ant) (cfg : Config) (g : Grid) (explore : Bool) (pick : ℕ) :
    Grid × Ant × Bool :=
  let p := a.drop_pickup_phase cfg g
  if explore then
    let r := p.2.move_random p.1 pick
    (p.1, r.1, r.2)
  else p.2.move_heuristic_move_phase p.1 pick

/-- A 5 x 5 grid holding one cluster whose cell (2, 2) carries 2 food units;
the cluster total_food starts at 2 (= 1 cell * food_per_cell 2), its
cluster_index is 0. -/
def grid_c1 : Grid :=
  { cols := 5, rows := 5
    pheromone_to_food := fun _ _ => 0
    pheromone_to_nest := fun _ _ => 0
    heuristic_to_food := fun _ _ => 0
    heuristic_to_nest := fun _ _ => 0
    foods := fun c r => if c = 2 ∧ r = 2 then some { col := 2, row := 2, amount := 2 } else none
    obstacles := fun _ _ => false
    nest_position := none
    food_clusters :=
      [{ grid_x := 2, grid_y := 2, radius := 1, food_per_cell := 2
         food_cells := [(2, 2)], total_food := 2, cluster_index := 0 }] }

/-- Claim C1, evaluated at the failing input: one take_food(2, 2) on a cell
holding 2 units does reduce the cell amount by exactly 1 (2 to 1, food still
present), but the cluster total_food falls from 2 to 0 - it is decremented
once inside Grid.update_food_in_cluster and a second time by the
"self.total_food -= 1" line of FoodCluster.take_food, not by exactly 1 as
the claim states. -/
theorem claim1_take_food_eval :
    (grid_c1.take_food 0 2 2).2 = 1 ∧
    (((grid_c1.take_food 0 2 2).1.get_food 2 2).map Food.amount = some 1) ∧
    ((grid_c1.take_food 0 2 2).1.has_food 2 2 = true) ∧
    (((grid_c1.take_food 0 2 2).1.food_clusters.get? 0).map FoodCluster.total_food
      = some 0) := by
  decide

/-- A 3 x 3 obstacle-free grid with 12 units of to-food pheromone at the
centre cell (1, 1) and nothing else. -/
def grid_c3 : Grid :=
  { cols := 3, rows := 3
    pheromone_to_food := fun c r => if c = 1 ∧ r = 1 then 12 else 0
    pheromone_to_nest := fun _ _ => 0
    heuristic_to_food := fun _ _ => 0
    heuristic_to_nest := fun _ _ => 0
    foods := fun _ _ => none
    obstacles := fun _ _ => false
    nest_position := none
    food_clusters := [] }

/-- Configuration with the concrete values of src/config.py
(EVAPORATION_RATE 0.05, DIFFUSION_RATE 0.1, PHEROMONE_MAX_STRENGTH 100.0)
and sample values for the two nest radii that are missing from
src/config.py. -/
def cfg0 : Config :=
  { evaporation_rate := 1/20, diffusion_rate := 1/10
    pheromone_max_strength := 100, nest_pheromone_radius := 3, nest_radius := 2 }

/-- Claim C3, evaluated at the failing input: diffusing 12 units from the
centre of an obstacle-free 3 x 3 grid with DIFFUSION_RATE 0.1 delivers 1/10
to the orthogonal neighbour (1, 0) and 1/5 to the diagonal neighbour (0, 0):
each diagonal neighbour receives twice the orthogonal share, the exact
opposite of the claimed 2:1 ratio in favour of orthogonal neighbours (the
centre does keep (1 - 0.1) * 12 = 54/5). -/
theorem claim3_diffusion_weights_eval :
    ((grid_c3.diffuse_pheromones cfg0).get_pheromone_to_food 1 0 = 1/10) ∧
    ((grid_c3.diffuse_pheromones cfg0).get_pheromone_to_food 0 0 = 1/5) ∧
    ((grid_c3.diffuse_pheromones cfg0).get_pheromone_to_food 0 0 =
      2 * (grid_c3.diffuse_pheromones cfg0).get_pheromone_to_food 1 0) ∧
    ((grid_c3.diffuse_pheromones cfg0).get_pheromone_to_food 1 1 = 54/5) := by
  norm_num [Grid.diffuse_pheromones, Grid.get_pheromone_to_food, diffused_value,
    sum_neighbor_offsets, total_weight_eq, weight_matrix, Grid.in_bounds,
    grid_c3, cfg0, -Prod.mk_one_one, Prod.mk.injEq]

@[simp] lemma updateAt_same {α : Type} (f : ℤ → ℤ → α) (c r : ℤ) (v : α) :
    updateAt f c r v c r = v := by
  simp [updateAt]

lemma updateAt_other {α : Type} (f : ℤ → ℤ → α) (c r c' r' : ℤ) (v : α)
    (h : ¬(c' = c ∧ r' = r)) : updateAt f c r v c' r' = f c' r' := by
  simp [updateAt, h]

/-- A searching ant at (1, 1) with heading (1, 0), deposit strength 10,
decay rate 0.99, minimum strength 0.1. -/
def ant_c2 : Ant :=
  { col := 1, row := 1, has_food := false
    base_strength := 10, current_strength := 10
    strength_decay_rate := 99/100, min_strength := 1/10
    heading := some (1, 0), steps_taken := 0, path := [(1, 1)] }

/-- Claim C2 fails on the code: in a non-exploring ACO move step of a
SEARCHING ant (has_food = false) the deposit lands in the to-NEST field,
not the to-FOOD field the claim names - after the step at (1, 1) the
to-food pheromone there is still 0 while the to-nest pheromone is 10. -/
theorem claim2_counterexample :
    ((ant_c2.move_aco_move_phase grid_z5 0).2.2 = true) ∧
    ((ant_c2.move_aco_move_phase grid_z5 0).1.get_pheromone_to_food 1 1 = 0) ∧
    ((ant_c2.move_aco_move_phase grid_z5 0).1.get_pheromone_to_nest 1 1 = 10) := by
  have hmoves : ant_c2.allowed_or_valid_moves grid_z5 = [(2, 0, 2), (2, 1, 1), (2, 2, 2)] := by
    decide
  simp only [Ant.move_aco_move_phase, hmoves]
  simp [Ant.deposit_pheromone, Grid.add_pheromone, Grid.get_pheromone_to_food,
    Grid.get_pheromone_to_nest, Grid.in_bounds, ant_c2, grid_z5, updateAt,
    Ant.apply_move]

/-- Claim C2 as amended: in every non-exploring ACO move step with a
nonempty candidate set, the ant deposits at its current (pre-move) cell
before the position update, the deposited kind is to-NEST when the ant is
SEARCHING and to-FOOD when it is RETURNING (the reverse of the claimed
mapping), the deposit adds the current deposit strength, and that strength
is then multiplied by the decay rate and floored at the minimum. -/
theorem claim2_amended (g : Grid) (a : Ant) (pick : ℕ)
    (hin : g.in_bounds a.col a.row)
    (hmv : a.allowed_or_valid_moves g ≠ []) :
    ((a.move_aco_move_phase g pick).2.2 = true) ∧
    (a.has_food = false →
      (a.move_aco_move_phase g pick).1.get_pheromone_to_nest a.col a.row
        = g.get_pheromone_to_nest a.col a.row + a.current_strength ∧
      (a.move_aco_move_phase g pick).1.get_pheromone_to_food a.col a.row
        = g.get_pheromone_to_food a.col a.row) ∧
    (a.has_food = true →
      (a.move_aco_move_phase g pick).1.get_pheromone_to_food a.col a.row
        = g.get_pheromone_to_food a.col a.row + a.current_strength ∧
      (a.move_aco_move_phase g pick).1.get_pheromone_to_nest a.col a.row
        = g.get_pheromone_to_nest a.col a.row) ∧
    ((a.move_aco_move_phase g pick).2.1.current_strength
        = max (a.current_strength * a.strength_decay_rate) a.min_strength) := by
  rcases hm : a.allowed_or_valid_moves g with _ | ⟨mv, rest⟩
  · exact absurd hm hmv
  · rw [Grid.in_bounds] at hin
    cases hf : a.has_food <;>
      simp [Ant.move_aco_move_phase, hm, Ant.deposit_pheromone, hf,
        Grid.add_pheromone, Grid.get_pheromone_to_food,
        Grid.get_pheromone_to_nest, Ant.apply_move, Grid.in_bounds,
        hin.1, hin.2.1, hin.2.2.1, hin.2.2.2]

/-- Witness for the amended claim C2 at the concrete searching ant ant_c2 on
the empty grid grid_z5. -/
theorem claim2_witness :
    grid_z5.in_bounds 1 1 ∧
    ant_c2.allowed_or_valid_moves grid_z5 ≠ [] ∧
    ((ant_c2.move_aco_move_phase grid_z5 0).2.1.current_strength
      = max (ant_c2.current_strength * ant_c2.strength_decay_rate) ant_c2.min_strength) :=
  ⟨by decide, by decide,
    (claim2_amended grid_z5 ant_c2 0 (by decide) (by decide)).2.2.2⟩

lemma evaporate_cell_nonneg (cfg : Config) (v : ℚ) : 0 ≤ evaporate_cell cfg v := by
  unfold evaporate_cell
  split_ifs with h
  · exact le_refl 0
  · push_neg at h
    linarith

lemma evaporate_cell_le_max (cfg : Config) (v : ℚ)
    (hmax : 0 ≤ cfg.pheromone_max_strength) :
    evaporate_cell cfg v ≤ cfg.pheromone_max_strength := by
  unfold evaporate_cell
  split_ifs with h
  · exact hmax
  · exact min_le_right _ _

/-- Replacing only the pheromone fields does not change nest membership. -/
lemma is_nest_cell_fields (g : Grid) (cfg : Config) (pf pn : ℤ → ℤ → ℚ) (c r : ℤ) :
    Grid.is_nest_cell { g with pheromone_to_food := pf, pheromone_to_nest := pn } cfg c r
      = g.is_nest_cell cfg c r := rfl

/-- Claim C4: one evaporation pass (update_pheromones with evaporation on and
diffusion off) maps every in-bounds cell of both pheromone fields through
evaporate_cell - multiply by (1 - evaporation_rate), cap at
PHEROMONE_MAX_STRENGTH, floor values below the 0.01 epsilon to exactly 0 -
and afterwards re-pins every nest-region cell to PHEROMONE_MAX_STRENGTH; the
resulting values always lie in [0, PHEROMONE_MAX_STRENGTH]. -/
theorem claim4_evaporate_repin (cfg : Config) (g : Grid)
    (hmax : 0 ≤ cfg.pheromone_max_strength) (c r : ℤ) (hin : g.in_bounds c r) :
    ((g.update_pheromones cfg true false).pheromone_to_food c r
      = if g.is_nest_cell cfg c r then cfg.pheromone_max_strength
        else evaporate_cell cfg (g.pheromone_to_food c r)) ∧
    ((g.update_pheromones cfg true false).pheromone_to_nest c r
      = if g.is_nest_cell cfg c r then cfg.pheromone_max_strength
        else evaporate_cell cfg (g.pheromone_to_nest c r)) ∧
    (0 ≤ (g.update_pheromones cfg true false).pheromone_to_food c r ∧
      (g.update_pheromones cfg true false).pheromone_to_food c r ≤ cfg.pheromone_max_strength) ∧
    (0 ≤ (g.update_pheromones cfg true false).pheromone_to_nest c r ∧
      (g.update_pheromones cfg true false).pheromone_to_nest c r ≤ cfg.pheromone_max_strength) := by
  cases hn : g.is_nest_cell cfg c r <;>
    simp [Grid.update_pheromones, Grid.set_nest_pheromones,
      Grid.evaporate_pheromones, is_nest_cell_fields, hn, hin, hmax,
      evaporate_cell_nonneg, evaporate_cell_le_max]

/-- Witness for claim C4 on the concrete grid grid_c3 at cell (1, 1). -/
theorem claim4_witness :
    (0 : ℚ) ≤ cfg0.pheromone_max_strength ∧ grid_c3.in_bounds 1 1 ∧
    (0 ≤ (grid_c3.update_pheromones cfg0 true false).pheromone_to_food 1 1 ∧
      (grid_c3.update_pheromones cfg0 true false).pheromone_to_food 1 1
        ≤ cfg0.pheromone_max_strength) :=
  ⟨by norm_num [cfg0], by decide,
    (claim4_evaporate_repin cfg0 grid_c3 (by norm_num [cfg0]) 1 1 (by decide)).2.2.1⟩

lemma weight_matrix_nonneg (d : ℤ × ℤ) : 0 ≤ weight_matrix d := by
  unfold weight_matrix
  split_ifs <;> norm_num

/-- Lower bound for one diffusion write at an in-bounds cell. -/
lemma diffused_value_nonneg (cfg : Config) (g : Grid) (v : ℤ → ℤ → ℚ) (c r : ℤ)
    (hrate1 : cfg.diffusion_rate ≤ 1) (hrate0 : 0 ≤ cfg.diffusion_rate)
    (hin : g.in_bounds c r)
    (hv : ∀ c' r', g.in_bounds c' r' → 0 ≤ v c' r') :
    0 ≤ diffused_value cfg g v c r := by
  unfold diffused_value
  split_ifs with h
  · exact le_refl 0
  · have h1 : 0 ≤ (1 - cfg.diffusion_rate) * v c r :=
      mul_nonneg (by linarith) (hv c r hin)
    have h2 : 0 ≤ ∑ d ∈ neighbor_offsets,
        (if g.in_bounds (c - d.1) (r - d.2) ∧ g.obstacles (c - d.1) (r - d.2) = false then
          v (c - d.1) (r - d.2) * cfg.diffusion_rate * (weight_matrix d / total_weight)
        else 0) := by
      apply Finset.sum_nonneg
      intro d _
      split_ifs with hd
      · exact mul_nonneg (mul_nonneg (hv _ _ hd.1) hrate0)
          (div_nonneg (weight_matrix_nonneg d) (by rw [total_weight_eq]; norm_num))
      · exact le_refl 0
    linarith

/-- Upper bound for one diffusion write at an in-bounds cell. -/
lemma diffused_value_le_max (cfg : Config) (g : Grid) (v : ℤ → ℤ → ℚ) (c r : ℤ)
    (hmax : 0 ≤ cfg.pheromone_max_strength)
    (hrate1 : cfg.diffusion_rate ≤ 1) (hrate0 : 0 ≤ cfg.diffusion_rate)
    (hin : g.in_bounds c r)
    (hv : ∀ c' r', g.in_bounds c' r' →
      0 ≤ v c' r' ∧ v c' r' ≤ cfg.pheromone_max_strength) :
    diffused_value cfg g v c r ≤ cfg.pheromone_max_strength := by
  unfold diffused_value
  split_ifs with h
  · exact hmax
  · have hkeep : (1 - cfg.diffusion_rate) * v c r
        ≤ (1 - cfg.diffusion_rate) * cfg.pheromone_max_strength :=
      mul_le_mul_of_nonneg_left (hv c r hin).2 (by linarith)
    have hsum : ∑ d ∈ neighbor_offsets,
        (if g.in_bounds (c - d.1) (r - d.2) ∧ g.obstacles (c - d.1) (r - d.2) = false then
          v (c - d.1) (r - d.2) * cfg.diffusion_rate * (weight_matrix d / total_weight)
        else 0)
        ≤ ∑ d ∈ neighbor_offsets,
          cfg.pheromone_max_strength * cfg.diffusion_rate * (weight_matrix d / total_weight) := by
      apply Finset.sum_le_sum
      intro d _
      have hw : 0 ≤ weight_matrix d / total_weight :=
        div_nonneg (weight_matrix_nonneg d) (by rw [total_weight_eq]; norm_num)
      split_ifs with hd
      · exact mul_le_mul_of_nonneg_right
          (mul_le_mul_of_nonneg_right (hv _ _ hd.1).2 hrate0) hw
      · exact mul_nonneg (mul_nonneg hmax hrate0) hw
    have hsum2 : ∑ d ∈ neighbor_offsets,
        cfg.pheromone_max_strength * cfg.diffusion_rate * (weight_matrix d / total_weight)
        = cfg.pheromone_max_strength * cfg.diffusion_rate := by
      rw [← Finset.mul_sum, ← Finset.sum_div]
      rw [show (∑ d ∈ neighbor_offsets, weight_matrix d) = total_weight from rfl]
      rw [total_weight_eq]
      ring
    nlinarith [hsum, hsum2, hkeep]

/-- A 3 x 3 obstacle-free grid whose to-food field already sits at the
maximum strength 100 on the centre cell. -/
def grid_c5 : Grid :=
  { cols := 3, rows := 3
    pheromone_to_food := fun c r => if c = 1 ∧ r = 1 then 100 else 0
    pheromone_to_nest := fun _ _ => 0
    heuristic_to_food := fun _ _ => 0
    heuristic_to_nest := fun _ _ => 0
    foods := fun _ _ => none
    obstacles := fun _ _ => false
    nest_position := none
    food_clusters := [] }

/-- Claim C5 fails on the code: an ant deposit (Grid.add_pheromone, which
has no upper clamp) on a cell already at PHEROMONE_MAX_STRENGTH = 100 pushes
it to 110, outside [0, MAX_STRENGTH]. -/
theorem claim5_counterexample :
    (grid_c5.add_pheromone 1 1 PType.to_food 10).1.get_pheromone_to_food 1 1 = 110 ∧
    ¬((grid_c5.add_pheromone 1 1 PType.to_food 10).1.get_pheromone_to_food 1 1
        ≤ cfg0.pheromone_max_strength) := by
  norm_num [Grid.add_pheromone, Grid.get_pheromone_to_food, Grid.in_bounds,
    grid_c5, cfg0, updateAt]

/-- Claim C5 as amended: evaporation, diffusion and nest re-pinning each keep
every in-bounds cell of both pheromone fields inside [0, MAX_STRENGTH]
(given in-range inputs), but an ant deposit (add_pheromone) only preserves
nonnegativity: it can exceed MAX_STRENGTH by up to the deposited strength,
and the bound is only restored by the next evaporation pass. -/
theorem claim5_amended (cfg : Config) (g : Grid)
    (hmax : 0 ≤ cfg.pheromone_max_strength)
    (hrate0 : 0 ≤ cfg.diffusion_rate) (hrate1 : cfg.diffusion_rate ≤ 1)
    (hbf : ∀ c' r', g.in_bounds c' r' →
      0 ≤ g.pheromone_to_food c' r' ∧ g.pheromone_to_food c' r' ≤ cfg.pheromone_max_strength)
    (hbn : ∀ c' r', g.in_bounds c' r' →
      0 ≤ g.pheromone_to_nest c' r' ∧ g.pheromone_to_nest c' r' ≤ cfg.pheromone_max_strength)
    (c r : ℤ) (hin : g.in_bounds c r) :
    (0 ≤ (g.evaporate_pheromones cfg).pheromone_to_food c r ∧
      (g.evaporate_pheromones cfg).pheromone_to_food c r ≤ cfg.pheromone_max_strength) ∧
    (0 ≤ (g.evaporate_pheromones cfg).pheromone_to_nest c r ∧
      (g.evaporate_pheromones cfg).pheromone_to_nest c r ≤ cfg.pheromone_max_strength) ∧
    (0 ≤ (g.diffuse_pheromones cfg).pheromone_to_food c r ∧
      (g.diffuse_pheromones cfg).pheromone_to_food c r ≤ cfg.pheromone_max_strength) ∧
    (0 ≤ (g.diffuse_pheromones cfg).pheromone_to_nest c r ∧
      (g.diffuse_pheromones cfg).pheromone_to_nest c r ≤ cfg.pheromone_max_strength) ∧
    (0 ≤ (g.set_nest_pheromones cfg).pheromone_to_food c r ∧
      (g.set_nest_pheromones cfg).pheromone_to_food c r ≤ cfg.pheromone_max_strength) ∧
    (0 ≤ (g.set_nest_pheromones cfg).pheromone_to_nest c r ∧
      (g.set_nest_pheromones cfg).pheromone_to_nest c r ≤ cfg.pheromone_max_strength) ∧
    (∀ s : ℚ, 0 ≤ s →
      0 ≤ (g.add_pheromone c r PType.to_food s).1.pheromone_to_food c r ∧
      (g.add_pheromone c r PType.to_food s).1.pheromone_to_food c r
        ≤ cfg.pheromone_max_strength + s) ∧
    (∀ s : ℚ, 0 ≤ s →
      0 ≤ (g.add_pheromone c r PType.to_nest s).1.pheromone_to_nest c r ∧
      (g.add_pheromone c r PType.to_nest s).1.pheromone_to_nest c r
        ≤ cfg.pheromone_max_strength + s) := by
  refine ⟨?_, ?_, ?_, ?_, ?_, ?_, ?_, ?_⟩
  · simp only [Grid.evaporate_pheromones]
    simp [hin, evaporate_cell_nonneg, evaporate_cell_le_max, hmax]
  · simp only [Grid.evaporate_pheromones]
    simp [hin, evaporate_cell_nonneg, evaporate_cell_le_max, hmax]
  · unfold Grid.diffuse_pheromones
    split_ifs with h
    · exact hbf c r hin
    · simp only [hin, if_true]
      exact ⟨diffused_value_nonneg cfg g _ c r hrate1 hrate0 hin
          (fun c' r' h' => (hbf c' r' h').1),
        diffused_value_le_max cfg g _ c r hmax hrate1 hrate0 hin hbf⟩
  · unfold Grid.diffuse_pheromones
    split_ifs with h
    · exact hbn c r hin
    · simp only [hin, if_true]
      exact ⟨diffused_value_nonneg cfg g _ c r hrate1 hrate0 hin
          (fun c' r' h' => (hbn c' r' h').1),
        diffused_value_le_max cfg g _ c r hmax hrate1 hrate0 hin hbn⟩
  · simp only [Grid.set_nest_pheromones]
    split_ifs with h
    · exact ⟨hmax, le_refl _⟩
    · exact hbf c r hin
  · simp only [Grid.set_nest_pheromones]
    split_ifs with h
    · exact ⟨hmax, le_refl _⟩
    · exact hbn c r hin
  · intro s hs
    simp only [Grid.add_pheromone, hin, if_true]
    simp only [updateAt_same]
    exact ⟨add_nonneg (hbf c r hin).1 hs, by
      have := (hbf c r hin).2
      linarith⟩
  · intro s hs
    simp only [Grid.add_pheromone, hin, if_true]
    simp only [updateAt_same]
    exact ⟨add_nonneg (hbn c r hin).1 hs, by
      have := (hbn c r hin).2
      linarith⟩

/-- Witness for the amended claim C5 on the all-zero grid grid_z5 with the
concrete configuration cfg0, at cell (1, 1). -/
theorem claim5_witness :
    grid_z5.in_bounds 1 1 ∧
    (0 ≤ (grid_z5.diffuse_pheromones cfg0).pheromone_to_food 1 1 ∧
      (grid_z5.diffuse_pheromones cfg0).pheromone_to_food 1 1
        ≤ cfg0.pheromone_max_strength) :=
  ⟨by decide,
    (claim5_amended cfg0 grid_z5 (by norm_num [cfg0]) (by norm_num [cfg0])
      (by norm_num [cfg0])
      (fun c' r' _ => by norm_num [grid_z5, cfg0])
      (fun c' r' _ => by norm_num [grid_z5, cfg0])
      1 1 (by decide)).2.2.1⟩

/-- Python max() over a nonempty list ([] gives 0, a case the source never
reaches because the caller guards on a nonempty move list). -/
def list_max : List ℚ → ℚ
  | [] => 0
  | x :: xs => xs.foldl max x

/-- The temperature guard of Ant.move_aco (src/ant.py lines 287-288):
non-positive temperatures are replaced by 0.001. -/
def effective_temperature (t : ℚ) : ℚ := if t ≤ 0 then 1/1000 else t

/-- The scaled-capped-exponentiated score pipeline of Ant.move_aco
(src/ant.py lines 297-304): subtract the maximum score, divide by the
temperature, cap below at -50, then exponentiate.  E models math.exp, which
is transcendental; the theorems below assume only that E is nonnegative,
which holds for the float implementation. -/
def exp_pipeline (temperature : ℚ) (E : ℚ → ℚ) (scores : List ℚ) : List ℚ :=
  ((scores.map fun s => (s - list_max scores) / effective_temperature temperature).map
      fun s => max s (-50)).map E

/-- The softmax step of Ant.move_aco (src/ant.py lines 284-311): uniform
distribution when the maximum raw score is exactly 0 or when every
exponential is 0 (float underflow), otherwise the exponentials normalised by
their sum. -/
def softmax_probs (temperature : ℚ) (E : ℚ → ℚ) (scores : List ℚ) : List ℚ :=
  match scores with
  | [] => []
  | s0 :: rest =>
    if list_max (s0 :: rest) = 0 then
      List.replicate (s0 :: rest).length (1 / ((s0 :: rest).length : ℚ))
    else if (exp_pipeline temperature E (s0 :: rest)).sum = 0 then
      List.replicate (s0 :: rest).length (1 / ((s0 :: rest).length : ℚ))
    else
      (exp_pipeline temperature E (s0 :: rest)).map
        fun e => e / (exp_pipeline temperature E (s0 :: rest)).sum

lemma sum_map_div (l : List ℚ) (d : ℚ) : (l.map fun x => x / d).sum = l.sum / d := by
  induction l with
  | nil => simp
  | cons a t ih => simp [ih, add_div]

lemma sum_replicate_inv (n : ℕ) (hn : n ≠ 0) :
    (List.replicate n ((1 : ℚ) / (n : ℚ))).sum = 1 := by
  rw [List.sum_replicate, nsmul_eq_mul]
  field_simp

lemma exp_pipeline_mem_nonneg (temperature : ℚ) (E : ℚ → ℚ) (scores : List ℚ)
    (hE : ∀ x, 0 ≤ E x) : ∀ e ∈ exp_pipeline temperature E scores, 0 ≤ e := by
  intro e he
  rcases List.mem_map.mp he with ⟨a, _, rfl⟩
  exact hE a

lemma list_sum_nonneg (l : List ℚ) (h : ∀ x ∈ l, 0 ≤ x) : 0 ≤ l.sum := by
  induction l with
  | nil => simp
  | cons a t ih =>
    simp only [List.sum_cons]
    have := h a (List.mem_cons_self a t)
    have := ih fun x hx => h x (List.mem_cons_of_mem a hx)
    linarith

/-- Claim C6: for every nonempty score list the softmax-derived move
probabilities are all nonnegative and sum to exactly 1 (assuming only that
the exponential model E is nonnegative, as float math.exp is); when the
maximum raw score is exactly 0, or when every exponential underflowed to 0,
the distribution is exactly uniform over the candidates. -/
theorem claim6_softmax (temperature : ℚ) (E : ℚ → ℚ) (scores : List ℚ)
    (hE : ∀ x, 0 ≤ E x) (hne : scores ≠ []) :
    (∀ p ∈ softmax_probs temperature E scores, 0 ≤ p) ∧
    (softmax_probs temperature E scores).sum = 1 ∧
    (list_max scores = 0 →
      softmax_probs temperature E scores
        = List.replicate scores.length (1 / (scores.length : ℚ))) ∧
    ((exp_pipeline temperature E scores).sum = 0 →
      softmax_probs temperature E scores
        = List.replicate scores.length (1 / (scores.length : ℚ))) := by
  rcases scores with _ | ⟨s0, rest⟩
  · exact absurd rfl hne
  · have hn0 : ((s0 :: rest).length : ℚ) ≠ 0 := by
      have hpos : (0 : ℚ) < ((s0 :: rest).length : ℚ) := by
        exact_mod_cast Nat.succ_pos rest.length
      exact ne_of_gt hpos
    have hnn : 0 ≤ 1 / ((s0 :: rest).length : ℚ) := by positivity
    by_cases hm : list_max (s0 :: rest) = 0
    · refine ⟨?_, ?_, ?_, ?_⟩
      · intro p hp
        simp only [softmax_probs, hm, if_true] at hp
        rcases List.eq_of_mem_replicate hp with rfl
        exact hnn
      · simp only [softmax_probs, hm, if_true]
        exact sum_replicate_inv _ (by simp)
      · intro _
        simp [softmax_probs, hm]
      · intro _
        simp [softmax_probs, hm]
    · by_cases ht : (exp_pipeline temperature E (s0 :: rest)).sum = 0
      · refine ⟨?_, ?_, ?_, ?_⟩
        · intro p hp
          simp only [softmax_probs, hm, if_false, ht, if_true] at hp
          rcases List.eq_of_mem_replicate hp with rfl
          exact hnn
        · simp only [softmax_probs, hm, if_false, ht, if_true]
          exact sum_replicate_inv _ (by simp)
        · intro h0
          exact absurd h0 hm
        · intro _
          simp [softmax_probs, hm, ht]
      · have htpos : 0 < (exp_pipeline temperature E (s0 :: rest)).sum :=
          lt_of_le_of_ne
            (list_sum_nonneg _ (exp_pipeline_mem_nonneg temperature E _ hE))
            (Ne.symm ht)
        refine ⟨?_, ?_, ?_, ?_⟩
        · intro p hp
          simp only [softmax_probs, hm, if_false, ht] at hp
          rcases List.mem_map.mp hp with ⟨e, he, rfl⟩
          exact div_nonneg (exp_pipeline_mem_nonneg temperature E _ hE e he) htpos.le
        · simp only [softmax_probs, hm, if_false, ht]
          rw [sum_map_div, div_self ht]
        · intro h0
          exact absurd h0 hm
        · intro h0
          exact absurd h0 ht

/-- Witness for claim C6 at the concrete scores [3, 5], temperature 1/10 and
the constant exponential model E = 1. -/
theorem claim6_witness :
    (∀ x : ℚ, 0 ≤ (fun _ : ℚ => (1 : ℚ)) x) ∧ ([(3 : ℚ), 5] ≠ []) ∧
    (softmax_probs (1/10) (fun _ : ℚ => (1 : ℚ)) [3, 5]).sum = 1 :=
  ⟨fun _ => by norm_num, by simp,
    (claim6_softmax (1/10) (fun _ : ℚ => (1 : ℚ)) [3, 5]
      (fun _ => by norm_num) (by simp)).2.1⟩

/-- take_food returns a positive amount whenever the probed cluster index is
occupied and the cell holds a Food object with positive amount. -/
lemma take_food_pos (g : Grid) (i : ℕ) (col row : ℤ) (cl : FoodCluster) (f : Food)
    (hgi : g.food_clusters.get? i = some cl)
    (hf : g.get_food col row = some f) (hamt : 0 < f.amount) :
    0 < (g.take_food i col row).2 := by
  simp only [Grid.take_food, hgi, hf, hamt, if_true, Food.take]
  have h1 : (0 : ℤ) < min 1 f.amount := by omega
  simp only [h1, if_true]

/-- The scanning loop of Ant._pickup_food finds a grid whenever some cluster
at or after the scan position owns the cell and the cell holds food. -/
lemma pickup_aux_succeeds (col row : ℤ) (f : Food) :
    ∀ (fuel i : ℕ) (g : Grid),
      g.get_food col row = some f → 0 < f.amount →
      (∃ j, i ≤ j ∧ j < i + fuel ∧ ∃ cl, g.food_clusters.get? j = some cl ∧
        (col, row) ∈ cl.food_cells) →
      (pickup_aux col row fuel i g).isSome := by
  intro fuel
  induction fuel with
  | zero =>
    rintro i g _ _ ⟨j, hij, hlt, _⟩
    omega
  | succ fuel ih =>
    rintro i g hf hamt ⟨j, hij, hlt, cl', hcl', hmem'⟩
    cases hgi : g.food_clusters.get? i with
    | none =>
      have hlen : g.food_clusters.length ≤ i := List.get?_eq_none.mp hgi
      have hjlen : j < g.food_clusters.length := (List.get?_eq_some.mp hcl').1
      omega
    | some cl =>
      by_cases hmem : (col, row) ∈ cl.food_cells
      · have hpos := take_food_pos g i col row cl f hgi hf hamt
        simp only [pickup_aux, hgi, hmem, if_true, hpos]
        rfl
      · simp only [pickup_aux, hgi, hmem, if_false]
        have hne : j ≠ i := by
          intro e
          subst e
          rw [hgi] at hcl'
          injection hcl' with e2
          subst e2
          exact hmem hmem'
        exact ih (i + 1) g hf hamt ⟨j, by omega, by omega, cl', hcl', hmem'⟩

/-- Claim C7: in the drop/pickup phase of a tick, a RETURNING ant (carrying
food) inside the nest radius becomes SEARCHING (has_food false) with its
deposit strength reset to base and its heading reversed (assuming the nest
cell holds no food to immediately pick back up); conversely a SEARCHING ant
on a cell with available cluster food becomes RETURNING with the same two
side effects. -/
theorem claim7_state_machine (cfg : Config) (g : Grid) (a : Ant) :
    (a.has_food = true → a.at_nest cfg g = true → g.has_food a.col a.row = false →
      ((a.drop_pickup_phase cfg g).2.has_food = false ∧
       (a.drop_pickup_phase cfg g).2.current_strength = a.base_strength ∧
       (a.drop_pickup_phase cfg g).2.heading = a.heading.map (fun h => (-h.1, -h.2)))) ∧
    (a.has_food = false →
      ∀ f : Food, g.get_food a.col a.row = some f → 0 < f.amount →
      (∃ j cl, g.food_clusters.get? j = some cl ∧ (a.col, a.row) ∈ cl.food_cells) →
      ((a.drop_pickup_phase cfg g).2.has_food = true ∧
       (a.drop_pickup_phase cfg g).2.current_strength = a.base_strength ∧
       (a.drop_pickup_phase cfg g).2.heading = a.heading.map (fun h => (-h.1, -h.2)))) := by
  constructor
  · intro hcarry hnest hnofood
    simp [Ant.drop_pickup_phase, Ant.drop_food, hcarry, hnest, Ant.pickup_food,
      Ant.reset_strength, Ant.reverse_direction, hnofood]
  · intro hnc f hf hamt hex
    rcases hex with ⟨j, cl, hj, hmem⟩
    have hjlen : j < g.food_clusters.length := (List.get?_eq_some.mp hj).1
    have hsome := pickup_aux_succeeds a.col a.row f g.food_clusters.length 0 g hf hamt
      ⟨j, Nat.zero_le j, by omega, cl, hj, hmem⟩
    rcases Option.isSome_iff_exists.mp hsome with ⟨g', hg'⟩
    have hhas : g.has_food a.col a.row = true := by
      simp [Grid.has_food, hf]
    simp [Ant.drop_pickup_phase, Ant.drop_food, hnc, Ant.pickup_food, hhas, hg',
      Ant.reset_strength, Ant.reverse_direction]

/-- The cluster of the concrete grid grid_c1. -/
def cluster_c1 : FoodCluster :=
  { grid_x := 2, grid_y := 2, radius := 1, food_per_cell := 2
    food_cells := [(2, 2)], total_food := 2, cluster_index := 0 }

/-- A carrying ant standing on the nest centre (2, 2) of grid_z5. -/
def ant_w7a : Ant :=
  { col := 2, row := 2, has_food := true
    base_strength := 10, current_strength := 5
    strength_decay_rate := 99/100, min_strength := 1/10
    heading := some (1, 0), steps_taken := 0, path := [(2, 2)] }

/-- A searching ant standing on the food cell (2, 2) of grid_c1. -/
def ant_w7b : Ant :=
  { col := 2, row := 2, has_food := false
    base_strength := 10, current_strength := 5
    strength_decay_rate := 99/100, min_strength := 1/10
    heading := some (0, 1), steps_taken := 0, path := [(2, 2)] }

/-- Witness for claim C7: the carrying ant at the nest drops (has_food
becomes false, strength resets to 10, heading flips), and the searching ant
on the food cell picks up (has_food becomes true, same side effects). -/
theorem claim7_witness :
    ((ant_w7a.drop_pickup_phase cfg0 grid_z5).2.has_food = false ∧
     (ant_w7a.drop_pickup_phase cfg0 grid_z5).2.current_strength = 10 ∧
     (ant_w7a.drop_pickup_phase cfg0 grid_z5).2.heading = some (-1, 0)) ∧
    ((ant_w7b.drop_pickup_phase cfg0 grid_c1).2.has_food = true ∧
     (ant_w7b.drop_pickup_phase cfg0 grid_c1).2.current_strength = 10 ∧
     (ant_w7b.drop_pickup_phase cfg0 grid_c1).2.heading = some (0, -1)) :=
  ⟨(claim7_state_machine cfg0 grid_z5 ant_w7a).1 rfl
      (by norm_num [Ant.at_nest, ant_w7a, grid_z5, cfg0]) (by decide),
   (claim7_state_machine cfg0 grid_c1 ant_w7b).2 rfl
      { col := 2, row := 2, amount := 2 } (by decide) (by decide)
      ⟨0, cluster_c1, by decide, by decide⟩⟩

lemma getD_mem_of_mem {α : Type} (l : List α) (n : ℕ) (d : α) (hd : d ∈ l) :
    l.getD n d ∈ l := by
  rw [List.getD_eq_getElem?_getD]
  cases h : l[n]? with
  | none => simpa using hd
  | some x => simpa using List.getElem?_mem h

/-- Every entry of the valid-neighbour list is in bounds and off obstacles. -/
lemma mem_valid_neighbors (a : Ant) (g : Grid) (t : ℤ × ℤ × ℤ × ℤ)
    (ht : t ∈ a.get_valid_neighbors g) :
    g.in_bounds t.1 t.2.1 ∧ g.is_obstacle t.1 t.2.1 = false := by
  unfold Ant.get_valid_neighbors at ht
  rcases List.mem_filterMap.mp ht with ⟨d, _, hd⟩
  by_cases hc : 0 ≤ a.col + d.1 ∧ a.col + d.1 < g.cols ∧ 0 ≤ a.row + d.2 ∧
      a.row + d.2 < g.rows ∧ g.is_obstacle (a.col + d.1) (a.row + d.2) = false
  · rw [if_pos hc] at hd
    cases hd
    exact ⟨⟨hc.2.2.1, hc.2.2.2.1, hc.1, hc.2.1⟩, hc.2.2.2.2⟩
  · rw [if_neg hc] at hd
    cases hd

/-- Every candidate move is in bounds and off obstacles. -/
lemma mem_allowed_or_valid (a : Ant) (g : Grid) (m : ℤ × ℤ × ℤ)
    (hm : m ∈ a.allowed_or_valid_moves g) :
    g.in_bounds m.1 m.2.1 ∧ g.is_obstacle m.1 m.2.1 = false := by
  unfold Ant.allowed_or_valid_moves at hm
  split_ifs at hm with he
  · rcases List.mem_map.mp hm with ⟨t, ht, rfl⟩
    exact mem_valid_neighbors a g t ht
  · unfold Ant.get_allowed_neighbors at hm
    cases hh : a.heading with
    | none =>
      rw [hh] at hm
      rcases List.mem_map.mp hm with ⟨t, ht, rfl⟩
      exact mem_valid_neighbors a g t ht
    | some h =>
      rw [hh] at hm
      rcases List.mem_filterMap.mp hm with ⟨t, ht, hd⟩
      by_cases hp : (t.2.2.1, t.2.2.2) ∈ turning_patterns h
      · rw [if_pos hp] at hd
        cases hd
        exact mem_valid_neighbors a g t ht
      · rw [if_neg hp] at hd
        cases hd

lemma allowed_of_valid_nil (a : Ant) (g : Grid)
    (hv : a.get_valid_neighbors g = []) : a.get_allowed_neighbors g = [] := by
  unfold Ant.get_allowed_neighbors
  cases a.heading <;> simp [hv]

/-- The fallback chain yields no candidate exactly when there is no valid
neighbour at all. -/
lemma allowed_or_valid_empty_iff (a : Ant) (g : Grid) :
    a.allowed_or_valid_moves g = [] ↔ a.get_valid_neighbors g = [] := by
  unfold Ant.allowed_or_valid_moves
  constructor
  · intro h
    split_ifs at h with he
    · exact List.map_eq_nil_iff.mp h
    · exact absurd h (by simpa [List.isEmpty_iff] using he)
  · intro hv
    have ha := allowed_of_valid_nil a g hv
    simp [ha, hv]

/-- Equality of the board data (dimensions and obstacle mask) between two
grids; food bookkeeping does not touch these fields. -/
def same_board (g g' : Grid) : Prop :=
  g'.cols = g.cols ∧ g'.rows = g.rows ∧ g'.obstacles = g.obstacles

lemma same_board_refl (g : Grid) : same_board g g := ⟨rfl, rfl, rfl⟩

set_option maxHeartbeats 1000000 in
lemma take_food_board (g : Grid) (i : ℕ) (c r : ℤ) :
    same_board g (g.take_food i c r).1 := by
  simp only [Grid.take_food, Grid.update_food_in_cluster, Grid.set_cluster,
    Grid.remove_food]
  repeat' split
  all_goals simp [same_board]

lemma pickup_aux_board (c r : ℤ) :
    ∀ (fuel i : ℕ) (g g' : Grid), pickup_aux c r fuel i g = some g' →
      same_board g g' := by
  intro fuel
  induction fuel with
  | zero =>
    intro i g g' h
    simp [pickup_aux] at h
  | succ fuel ih =>
    intro i g g' h
    cases hgi : g.food_clusters.get? i with
    | none =>
      simp only [pickup_aux, hgi] at h
      cases h
    | some cl =>
      simp only [pickup_aux, hgi] at h
      by_cases hmem : (c, r) ∈ cl.food_cells
      · rw [if_pos hmem] at h
        by_cases hpos : 0 < (g.take_food i c r).2
        · rw [if_pos hpos] at h
          cases h
          exact take_food_board g i c r
        · rw [if_neg hpos] at h
          have h1 := take_food_board g i c r
          have h2 := ih (i + 1) _ g' h
          exact ⟨h2.1.trans h1.1, h2.2.1.trans h1.2.1, h2.2.2.trans h1.2.2⟩
      · rw [if_neg hmem] at h
        exact ih (i + 1) g g' h

lemma pickup_food_board (a : Ant) (g : Grid) :
    same_board g (a.pickup_food g).1 := by
  unfold Ant.pickup_food
  split_ifs with hc
  · cases hp : pickup_aux a.col a.row g.food_clusters.length 0 g with
    | none => simp [hp, same_board_refl]
    | some g' => simpa [hp] using pickup_aux_board a.col a.row _ 0 g g' hp
  · exact same_board_refl g

lemma pickup_food_pos (a : Ant) (g : Grid) :
    (a.pickup_food g).2.1.col = a.col ∧ (a.pickup_food g).2.1.row = a.row := by
  unfold Ant.pickup_food
  split_ifs with hc
  · cases hp : pickup_aux a.col a.row g.food_clusters.length 0 g <;>
      simp [hp, Ant.reset_strength, Ant.reverse_direction]
  · exact ⟨rfl, rfl⟩

lemma drop_food_pos (a : Ant) (cfg : Config) (g : Grid) :
    (a.drop_food cfg g).1.col = a.col ∧ (a.drop_food cfg g).1.row = a.row := by
  unfold Ant.drop_food
  split_ifs <;> simp [Ant.reset_strength, Ant.reverse_direction]

lemma drop_pickup_board (a : Ant) (cfg : Config) (g : Grid) :
    same_board g (a.drop_pickup_phase cfg g).1 := by
  unfold Ant.drop_pickup_phase
  exact pickup_food_board _ g

lemma drop_pickup_pos (a : Ant) (cfg : Config) (g : Grid) :
    (a.drop_pickup_phase cfg g).2.col = a.col ∧
    (a.drop_pickup_phase cfg g).2.row = a.row := by
  unfold Ant.drop_pickup_phase
  have h1 := drop_food_pos a cfg g
  have h2 := pickup_food_pos (a.drop_food cfg g).1 g
  exact ⟨h2.1.trans h1.1, h2.2.trans h1.2⟩

lemma in_bounds_of_board {g g' : Grid} (hb : same_board g g') (c r : ℤ) :
    g'.in_bounds c r ↔ g.in_bounds c r := by
  unfold Grid.in_bounds
  simp only [hb.1, hb.2.1]

lemma is_obstacle_of_board {g g' : Grid} (hb : same_board g g') (c r : ℤ) :
    g'.is_obstacle c r = g.is_obstacle c r := by
  unfold Grid.is_obstacle Grid.in_bounds
  simp only [hb.1, hb.2.1, hb.2.2]

lemma valid_neighbors_of_board {g g' : Grid} (a a' : Ant) (hb : same_board g g')
    (hc : a'.col = a.col) (hr : a'.row = a.row) :
    a'.get_valid_neighbors g' = a.get_valid_neighbors g := by
  unfold Ant.get_valid_neighbors Grid.is_obstacle Grid.in_bounds
  simp only [hb.1, hb.2.1, hb.2.2, hc, hr]

/-- Safety of one random move: the destination is drawn from the validated
candidate list, and a fully blocked ant stays put and reports no movement. -/
lemma move_random_spec (a : Ant) (g : Grid) (pick : ℕ)
    (hin : g.in_bounds a.col a.row) (hobs : g.is_obstacle a.col a.row = false) :
    (g.in_bounds (a.move_random g pick).1.col (a.move_random g pick).1.row ∧
      g.is_obstacle (a.move_random g pick).1.col (a.move_random g pick).1.row = false) ∧
    (a.get_valid_neighbors g = [] →
      (a.move_random g pick).1.col = a.col ∧ (a.move_random g pick).1.row = a.row ∧
      (a.move_random g pick).2 = false) := by
  cases hm : a.allowed_or_valid_moves g with
  | nil =>
    simp [Ant.move_random, hm, hin, hobs]
  | cons mv rest =>
    have hchosen : (mv :: rest).getD (pick % (mv :: rest).length) mv ∈ mv :: rest :=
      getD_mem_of_mem _ _ _ (List.mem_cons_self mv rest)
    have hmem := mem_allowed_or_valid a g
      ((mv :: rest).getD (pick % (mv :: rest).length) mv) (by rw [hm]; exact hchosen)
    constructor
    · simp only [Ant.move_random, hm]
      simpa [Ant.apply_move] using hmem
    · intro hv
      have := (allowed_or_valid_empty_iff a g).mpr hv
      rw [this] at hm
      cases hm

/-- Safety of the non-exploring ACO move step. -/
lemma move_aco_phase_spec (a : Ant) (g : Grid) (pick : ℕ)
    (hin : g.in_bounds a.col a.row) (hobs : g.is_obstacle a.col a.row = false) :
    (g.in_bounds (a.move_aco_move_phase g pick).2.1.col
        (a.move_aco_move_phase g pick).2.1.row ∧
      g.is_obstacle (a.move_aco_move_phase g pick).2.1.col
        (a.move_aco_move_phase g pick).2.1.row = false) ∧
    (a.get_valid_neighbors g = [] →
      (a.move_aco_move_phase g pick).2.1.col = a.col ∧
      (a.move_aco_move_phase g pick).2.1.row = a.row ∧
      (a.move_aco_move_phase g pick).2.2 = false) := by
  cases hm : a.allowed_or_valid_moves g with
  | nil =>
    simp [Ant.move_aco_move_phase, hm, hin, hobs]
  | cons mv rest =>
    have hchosen : (mv :: rest).getD (pick % (mv :: rest).length) mv ∈ mv :: rest :=
      getD_mem_of_mem _ _ _ (List.mem_cons_self mv rest)
    have hmem := mem_allowed_or_valid a g
      ((mv :: rest).getD (pick % (mv :: rest).length) mv) (by rw [hm]; exact hchosen)
    constructor
    · simp only [Ant.move_aco_move_phase, hm]
      simpa [Ant.apply_move, Ant.deposit_pheromone] using hmem
    · intro hv
      have := (allowed_or_valid_empty_iff a g).mpr hv
      rw [this] at hm
      cases hm

/-- Safety of the non-exploring heuristic move step. -/
lemma move_heuristic_phase_spec (a : Ant) (g : Grid) (pick : ℕ)
    (hin : g.in_bounds a.col a.row) (hobs : g.is_obstacle a.col a.row = false) :
    (g.in_bounds (a.move_heuristic_move_phase g pick).2.1.col
        (a.move_heuristic_move_phase g pick).2.1.row ∧
      g.is_obstacle (a.move_heuristic_move_phase g pick).2.1.col
        (a.move_heuristic_move_phase g pick).2.1.row = false) ∧
    (a.get_valid_neighbors g = [] →
      (a.move_heuristic_move_phase g pick).2.1.col = a.col ∧
      (a.move_heuristic_move_phase g pick).2.1.row = a.row ∧
      (a.move_heuristic_move_phase g pick).2.2 = false) := by
  cases hm : a.allowed_or_valid_moves g with
  | nil =>
    simp [Ant.move_heuristic_move_phase, hm, hin, hobs]
  | cons mv rest =>
    have hchosen : (mv :: rest).getD (pick % (mv :: rest).length) mv ∈ mv :: rest :=
      getD_mem_of_mem _ _ _ (List.mem_cons_self mv rest)
    have hmem := mem_allowed_or_valid a g
      ((mv :: rest).getD (pick % (mv :: rest).length) mv) (by rw [hm]; exact hchosen)
    constructor
    · simp only [Ant.move_heuristic_move_phase, hm]
      simpa [Ant.apply_move] using hmem
    · intro hv
      have := (allowed_or_valid_empty_iff a g).mpr hv
      rw [this] at hm
      cases hm

/-- Claim C10: for an ant on an in-bounds, non-obstacle cell, each move
entry point - move_aco, move_with_heuristic, move_random - leaves the ant on
an in-bounds, non-obstacle cell (every destination comes from the validated
neighbour set), and when no valid neighbour exists the position is unchanged
and the call reports no movement. -/
theorem claim10_moves_safe (cfg : Config) (g : Grid) (a : Ant) (explore : Bool)
    (pick : ℕ)
    (hin : g.in_bounds a.col a.row) (hobs : g.is_obstacle a.col a.row = false) :
    ((g.in_bounds (a.move_aco cfg g explore pick).2.1.col
        (a.move_aco cfg g explore pick).2.1.row ∧
      g.is_obstacle (a.move_aco cfg g explore pick).2.1.col
        (a.move_aco cfg g explore pick).2.1.row = false) ∧
     (a.get_valid_neighbors g = [] →
      (a.move_aco cfg g explore pick).2.1.col = a.col ∧
      (a.move_aco cfg g explore pick).2.1.row = a.row ∧
      (a.move_aco cfg g explore pick).2.2 = false)) ∧
    ((g.in_bounds (a.move_with_heuristic cfg g explore pick).2.1.col
        (a.move_with_heuristic cfg g explore pick).2.1.row ∧
      g.is_obstacle (a.move_with_heuristic cfg g explore pick).2.1.col
        (a.move_with_heuristic cfg g explore pick).2.1.row = false) ∧
     (a.get_valid_neighbors g = [] →
      (a.move_with_heuristic cfg g explore pick).2.1.col = a.col ∧
      (a.move_with_heuristic cfg g explore pick).2.1.row = a.row ∧
      (a.move_with_heuristic cfg g explore pick).2.2 = false)) ∧
    ((g.in_bounds (a.move_random g pick).1.col (a.move_random g pick).1.row ∧
      g.is_obstacle (a.move_random g pick).1.col (a.move_random g pick).1.row = false) ∧
     (a.get_valid_neighbors g = [] →
      (a.move_random g pick).1.col = a.col ∧ (a.move_random g pick).1.row = a.row ∧
      (a.move_random g pick).2 = false)) := by
  have hb := drop_pickup_board a cfg g
  have hp := drop_pickup_pos a cfg g
  have hin' : (a.drop_pickup_phase cfg g).1.in_bounds
      (a.drop_pickup_phase cfg g).2.col (a.drop_pickup_phase cfg g).2.row := by
    rw [in_bounds_of_board hb, hp.1, hp.2]
    exact hin
  have hobs' : (a.drop_pickup_phase cfg g).1.is_obstacle
      (a.drop_pickup_phase cfg g).2.col (a.drop_pickup_phase cfg g).2.row = false := by
    rw [is_obstacle_of_board hb, hp.1, hp.2]
    exact hobs
  have hveq : (a.drop_pickup_phase cfg g).2.get_valid_neighbors
      (a.drop_pickup_phase cfg g).1 = a.get_valid_neighbors g :=
    valid_neighbors_of_board a _ hb hp.1 hp.2
  refine ⟨?_, ?_, ?_⟩
  · unfold Ant.move_aco
    cases explore
    · have hspec := move_aco_phase_spec (a.drop_pickup_phase cfg g).2
        (a.drop_pickup_phase cfg g).1 pick hin' hobs'
      simp only [Bool.false_eq_true, if_false]
      constructor
      · rw [in_bounds_of_board hb, is_obstacle_of_board hb] at hspec
        exact hspec.1
      · intro hv
        have h2 := hspec.2 (by rw [hveq]; exact hv)
        exact ⟨h2.1.trans hp.1, h2.2.1.trans hp.2, h2.2.2⟩
    · have hspec := move_random_spec (a.drop_pickup_phase cfg g).2
        (a.drop_pickup_phase cfg g).1 pick hin' hobs'
      simp only [if_true]
      constructor
      · rw [in_bounds_of_board hb, is_obstacle_of_board hb] at hspec
        exact hspec.1
      · intro hv
        have h2 := hspec.2 (by rw [hveq]; exact hv)
        exact ⟨h2.1.trans hp.1, h2.2.1.trans hp.2, h2.2.2⟩
  · unfold Ant.move_with_heuristic
    cases explore
    · have hspec := move_heuristic_phase_spec (a.drop_pickup_phase cfg g).2
        (a.drop_pickup_phase cfg g).1 pick hin' hobs'
      simp only [Bool.false_eq_true, if_false]
      constructor
      · rw [in_bounds_of_board hb, is_obstacle_of_board hb] at hspec
        exact hspec.1
      · intro hv
        have h2 := hspec.2 (by rw [hveq]; exact hv)
        exact ⟨h2.1.trans hp.1, h2.2.1.trans hp.2, h2.2.2⟩
    · have hspec := move_random_spec (a.drop_pickup_phase cfg g).2
        (a.drop_pickup_phase cfg g).1 pick hin' hobs'
      simp only [if_true]
      constructor
      · rw [in_bounds_of_board hb, is_obstacle_of_board hb] at hspec
        exact hspec.1
      · intro hv
        have h2 := hspec.2 (by rw [hveq]; exact hv)
        exact ⟨h2.1.trans hp.1, h2.2.1.trans hp.2, h2.2.2⟩
  · exact move_random_spec a g pick hin hobs

/-- Witness for claim C10 with the concrete searching ant ant_c2 on grid_z5
(non-exploring ACO step, pick 0). -/
theorem claim10_witness :
    grid_z5.in_bounds 1 1 ∧ grid_z5.is_obstacle 1 1 = false ∧
    (grid_z5.in_bounds (ant_c2.move_aco cfg0 grid_z5 false 0).2.1.col
        (ant_c2.move_aco cfg0 grid_z5 false 0).2.1.row ∧
      grid_z5.is_obstacle (ant_c2.move_aco cfg0 grid_z5 false 0).2.1.col
        (ant_c2.move_aco cfg0 grid_z5 false 0).2.1.row = false) :=
  ⟨by decide, by decide,
    (claim10_moves_safe cfg0 grid_z5 ant_c2 false 0 (by decide) (by decide)).1.1⟩

/-- The finite set of in-bounds cells (col, row) of a grid. -/
def cell_finset (g : Grid) : Finset (ℤ × ℤ) :=
  Finset.Icc 0 (g.cols - 1) ×ˢ Finset.Icc 0 (g.rows - 1)

lemma mem_cell_finset (g : Grid) (p : ℤ × ℤ) :
    p ∈ cell_finset g ↔ g.in_bounds p.1 p.2 := by
  simp only [cell_finset, Finset.mem_product, Finset.mem_Icc, Grid.in_bounds]
  omega

/-- Total pheromone mass of one field summed over the non-obstacle in-bounds
cells. -/
def total_mass (g : Grid) (v : ℤ → ℤ → ℚ) : ℚ :=
  ∑ p ∈ cell_finset g, if g.obstacles p.1 p.2 = false then v p.1 p.2 else 0

/-- Receiver-side contribution arriving at cell p through offset d in one
diffusion pass (the sender sits at p - d). -/
def inc_term (cfg : Config) (g : Grid) (v : ℤ → ℤ → ℚ) (p d : ℤ × ℤ) : ℚ :=
  if g.in_bounds p.1 p.2 ∧ g.obstacles p.1 p.2 = false ∧
      g.in_bounds (p.1 - d.1) (p.2 - d.2) ∧
      g.obstacles (p.1 - d.1) (p.2 - d.2) = false then
    v (p.1 - d.1) (p.2 - d.2) * cfg.diffusion_rate * (weight_matrix d / total_weight)
  else 0

/-- Sender-side contribution leaving cell s towards s + d in one diffusion
pass. -/
def out_term (cfg : Config) (g : Grid) (v : ℤ → ℤ → ℚ) (s d : ℤ × ℤ) : ℚ :=
  if g.in_bounds (s.1 + d.1) (s.2 + d.2) ∧ g.obstacles (s.1 + d.1) (s.2 + d.2) = false ∧
      g.in_bounds s.1 s.2 ∧ g.obstacles s.1 s.2 = false then
    v s.1 s.2 * cfg.diffusion_rate * (weight_matrix d / total_weight)
  else 0

lemma inc_eq_out (cfg : Config) (g : Grid) (v : ℤ → ℤ → ℚ) (p d : ℤ × ℤ) :
    inc_term cfg g v p d = out_term cfg g v (p.1 - d.1, p.2 - d.2) d := by
  simp [inc_term, out_term, sub_add_cancel]

lemma inc_cond (cfg : Config) (g : Grid) (v : ℤ → ℤ → ℚ) (p d : ℤ × ℤ)
    (h : inc_term cfg g v p d ≠ 0) :
    g.in_bounds p.1 p.2 ∧ g.obstacles p.1 p.2 = false ∧
    g.in_bounds (p.1 - d.1) (p.2 - d.2) ∧
    g.obstacles (p.1 - d.1) (p.2 - d.2) = false := by
  by_cases hc : g.in_bounds p.1 p.2 ∧ g.obstacles p.1 p.2 = false ∧
      g.in_bounds (p.1 - d.1) (p.2 - d.2) ∧
      g.obstacles (p.1 - d.1) (p.2 - d.2) = false
  · exact hc
  · exact absurd (by simp [inc_term, hc]) h

lemma out_cond (cfg : Config) (g : Grid) (v : ℤ → ℤ → ℚ) (s d : ℤ × ℤ)
    (h : out_term cfg g v s d ≠ 0) :
    g.in_bounds (s.1 + d.1) (s.2 + d.2) ∧ g.obstacles (s.1 + d.1) (s.2 + d.2) = false ∧
    g.in_bounds s.1 s.2 ∧ g.obstacles s.1 s.2 = false := by
  by_cases hc : g.in_bounds (s.1 + d.1) (s.2 + d.2) ∧
      g.obstacles (s.1 + d.1) (s.2 + d.2) = false ∧
      g.in_bounds s.1 s.2 ∧ g.obstacles s.1 s.2 = false
  · exact hc
  · exact absurd (by simp [out_term, hc]) h

/-- One diffusion pass conserves the summed mass of a field when every
in-bounds non-obstacle cell holding a nonzero value has all eight neighbours
in bounds and off obstacles. -/
lemma diffuse_conserves (cfg : Config) (g : Grid) (v : ℤ → ℤ → ℚ)
    (hv : ∀ c r, g.in_bounds c r → g.obstacles c r = false → v c r ≠ 0 →
      ∀ d ∈ neighbor_offsets, g.in_bounds (c + d.1) (r + d.2) ∧
        g.obstacles (c + d.1) (r + d.2) = false) :
    (∑ p ∈ cell_finset g, if g.obstacles p.1 p.2 = false then
        (if g.in_bounds p.1 p.2 then diffused_value cfg g v p.1 p.2 else 0) else 0)
      = ∑ p ∈ cell_finset g, if g.obstacles p.1 p.2 = false then v p.1 p.2 else 0 := by
  have hA : ∀ p ∈ cell_finset g,
      (if g.obstacles p.1 p.2 = false then
        (if g.in_bounds p.1 p.2 then diffused_value cfg g v p.1 p.2 else 0) else 0)
      = (1 - cfg.diffusion_rate) * (if g.obstacles p.1 p.2 = false then v p.1 p.2 else 0)
        + ∑ d ∈ neighbor_offsets, inc_term cfg g v p d := by
    intro p hp
    have hpin : g.in_bounds p.1 p.2 := (mem_cell_finset g p).1 hp
    by_cases hob : g.obstacles p.1 p.2 = false
    · simp [diffused_value, inc_term, hob, hpin]
    · have hob' : g.obstacles p.1 p.2 = true := by simpa using hob
      simp [inc_term, hob']
  rw [Finset.sum_congr rfl hA, Finset.sum_add_distrib, ← Finset.mul_sum]
  have hB : (∑ p ∈ cell_finset g, ∑ d ∈ neighbor_offsets, inc_term cfg g v p d)
      = cfg.diffusion_rate *
        ∑ p ∈ cell_finset g, (if g.obstacles p.1 p.2 = false then v p.1 p.2 else 0) := by
    rw [← Finset.sum_product']
    have hbij : (∑ pd ∈ cell_finset g ×ˢ neighbor_offsets, inc_term cfg g v pd.1 pd.2)
        = ∑ pd ∈ cell_finset g ×ˢ neighbor_offsets, out_term cfg g v pd.1 pd.2 := by
      refine Finset.sum_bij_ne_zero
        (fun pd _ _ => ((pd.1.1 - pd.2.1, pd.1.2 - pd.2.2), pd.2)) ?_ ?_ ?_ ?_
      · intro a ha h0
        rcases inc_cond cfg g v a.1 a.2 h0 with ⟨_, _, h3, _⟩
        rw [Finset.mem_product] at ha ⊢
        exact ⟨(mem_cell_finset g _).2 h3, ha.2⟩
      · intro a1 h11 h12 a2 h21 h22 he
        have he' : ((a1.1.1 - a1.2.1, a1.1.2 - a1.2.2), a1.2)
            = ((a2.1.1 - a2.2.1, a2.1.2 - a2.2.2), a2.2) := he
        have hd : a1.2 = a2.2 := (Prod.ext_iff.mp he').2
        have hpair : (a1.1.1 - a1.2.1, a1.1.2 - a1.2.2)
            = (a2.1.1 - a2.2.1, a2.1.2 - a2.2.2) := (Prod.ext_iff.mp he').1
        have hp1 : a1.1.1 - a1.2.1 = a2.1.1 - a2.2.1 := (Prod.ext_iff.mp hpair).1
        have hp2 : a1.1.2 - a1.2.2 = a2.1.2 - a2.2.2 := (Prod.ext_iff.mp hpair).2
        have hd1 : a1.2.1 = a2.2.1 := (Prod.ext_iff.mp hd).1
        have hd2 : a1.2.2 = a2.2.2 := (Prod.ext_iff.mp hd).2
        have e1 : a1.1.1 = a2.1.1 := by omega
        have e2 : a1.1.2 = a2.1.2 := by omega
        rw [Prod.ext_iff]
        exact ⟨by rw [Prod.ext_iff]; exact ⟨e1, e2⟩, hd⟩
      · intro b hb h0
        rcases out_cond cfg g v b.1 b.2 h0 with ⟨h1, h2, h3, h4⟩
        rw [Finset.mem_product] at hb
        refine ⟨((b.1.1 + b.2.1, b.1.2 + b.2.2), b.2), ?_, ?_, ?_⟩
        · rw [Finset.mem_product]
          exact ⟨(mem_cell_finset g _).2 h1, hb.2⟩
        · have heq : inc_term cfg g v (b.1.1 + b.2.1, b.1.2 + b.2.2) b.2
              = out_term cfg g v b.1 b.2 := by
            rw [inc_eq_out]
            simp
          rw [heq]
          exact h0
        · simp
      · intro a h1 h0
        exact inc_eq_out cfg g v a.1 a.2
    rw [hbij, Finset.sum_product', Finset.mul_sum]
    apply Finset.sum_congr rfl
    intro s hs
    have hsin := (mem_cell_finset g s).1 hs
    by_cases hob : g.obstacles s.1 s.2 = false
    · by_cases hv0 : v s.1 s.2 = 0
      · simp [out_term, hv0, hob]
      · have hall := hv s.1 s.2 hsin hob hv0
        have hterm : ∀ d ∈ neighbor_offsets,
            out_term cfg g v s d
              = v s.1 s.2 * cfg.diffusion_rate * (weight_matrix d / total_weight) := by
          intro d hd
          rcases hall d hd with ⟨hbd, hod⟩
          simp [out_term, hsin, hob, hbd, hod]
        rw [Finset.sum_congr rfl hterm, ← Finset.mul_sum]
        have hw : (∑ d ∈ neighbor_offsets, weight_matrix d / total_weight) = 1 := by
          rw [← Finset.sum_div]
          rw [show (∑ d ∈ neighbor_offsets, weight_matrix d) = total_weight from rfl]
          rw [total_weight_eq]
          norm_num
        rw [hw, mul_one, if_pos hob]
        ring
    · have hob' : g.obstacles s.1 s.2 = true := by simpa using hob
      simp [out_term, hob']
  rw [hB]
  ring

/-- A 1 x 1 obstacle-free grid holding 12 units of to-food pheromone. -/
def grid_c8 : Grid :=
  { cols := 1, rows := 1
    pheromone_to_food := fun _ _ => 12
    pheromone_to_nest := fun _ _ => 0
    heuristic_to_food := fun _ _ => 0
    heuristic_to_nest := fun _ _ => 0
    foods := fun _ _ => none
    obstacles := fun _ _ => false
    nest_position := none
    food_clusters := [] }

/-- Claim C8 fails on the code: on a 1 x 1 grid with no obstacles at all (so
no non-obstacle cell borders an obstacle cell), one diffuse() with rate 0.1
shrinks the summed to-food mass from 12 to 54/5 - every share sent towards a
coordinate outside the grid is silently lost, so mass is not conserved at
grid edges even without obstacles. -/
theorem claim8_counterexample :
    (∀ c r : ℤ, grid_c8.obstacles c r = false) ∧
    total_mass grid_c8 grid_c8.pheromone_to_food = 12 ∧
    total_mass (grid_c8.diffuse_pheromones cfg0)
      (grid_c8.diffuse_pheromones cfg0).pheromone_to_food = 54/5 ∧
    total_mass (grid_c8.diffuse_pheromones cfg0)
        (grid_c8.diffuse_pheromones cfg0).pheromone_to_food
      ≠ total_mass grid_c8 grid_c8.pheromone_to_food := by
  have h1 : total_mass grid_c8 grid_c8.pheromone_to_food = 12 := by
    simp [total_mass, cell_finset, grid_c8]
  have h2 : total_mass (grid_c8.diffuse_pheromones cfg0)
      (grid_c8.diffuse_pheromones cfg0).pheromone_to_food = 54/5 := by
    rw [show grid_c8.diffuse_pheromones cfg0
        = { grid_c8 with
            pheromone_to_food := fun c r =>
              if grid_c8.in_bounds c r then
                diffused_value cfg0 grid_c8 grid_c8.pheromone_to_food c r else 0
            pheromone_to_nest := fun c r =>
              if grid_c8.in_bounds c r then
                diffused_value cfg0 grid_c8 grid_c8.pheromone_to_nest c r else 0 } from by
      rw [Grid.diffuse_pheromones, if_neg (by norm_num [cfg0])]]
    norm_num [total_mass, cell_finset, diffused_value, sum_neighbor_offsets,
      weight_matrix, total_weight_eq, Grid.in_bounds, grid_c8, cfg0,
      -Prod.mk_one_one, Prod.mk.injEq]
  exact ⟨fun _ _ => rfl, h1, h2, by rw [h1, h2]; norm_num⟩

/-- Claim C8 as amended: one diffuse() call leaves the total pheromone mass
over non-obstacle cells unchanged - exactly, since the model is exact
rational arithmetic - for each of the two fields, provided every in-bounds
non-obstacle cell carrying a nonzero value has all eight of its neighbours
in bounds and non-obstacle (the original hypothesis, "no non-obstacle cell
borders an obstacle", is insufficient: shares sent across the grid edge are
lost, as the counterexample shows). -/
theorem claim8_amended (cfg : Config) (g : Grid)
    (hf : ∀ c r, g.in_bounds c r → g.obstacles c r = false →
      g.pheromone_to_food c r ≠ 0 →
      ∀ d ∈ neighbor_offsets, g.in_bounds (c + d.1) (r + d.2) ∧
        g.obstacles (c + d.1) (r + d.2) = false)
    (hn : ∀ c r, g.in_bounds c r → g.obstacles c r = false →
      g.pheromone_to_nest c r ≠ 0 →
      ∀ d ∈ neighbor_offsets, g.in_bounds (c + d.1) (r + d.2) ∧
        g.obstacles (c + d.1) (r + d.2) = false) :
    total_mass (g.diffuse_pheromones cfg) (g.diffuse_pheromones cfg).pheromone_to_food
      = total_mass g g.pheromone_to_food ∧
    total_mass (g.diffuse_pheromones cfg) (g.diffuse_pheromones cfg).pheromone_to_nest
      = total_mass g g.pheromone_to_nest := by
  unfold Grid.diffuse_pheromones
  split_ifs with hrate
  · exact ⟨rfl, rfl⟩
  · exact ⟨diffuse_conserves cfg g g.pheromone_to_food hf,
      diffuse_conserves cfg g g.pheromone_to_nest hn⟩

/-- A 5 x 5 obstacle-free grid whose only nonzero to-food pheromone sits on
the centre cell (2, 2), away from every edge. -/
def grid_c8w : Grid :=
  { cols := 5, rows := 5
    pheromone_to_food := fun c r => if c = 2 ∧ r = 2 then 12 else 0
    pheromone_to_nest := fun _ _ => 0
    heuristic_to_food := fun _ _ => 0
    heuristic_to_nest := fun _ _ => 0
    foods := fun _ _ => none
    obstacles := fun _ _ => false
    nest_position := none
    food_clusters := [] }

/-- Witness for the amended claim C8 on grid_c8w: the mass concentrated at
the interior cell is conserved by one diffusion pass, in both fields. -/
theorem claim8_witness :
    total_mass (grid_c8w.diffuse_pheromones cfg0)
        (grid_c8w.diffuse_pheromones cfg0).pheromone_to_food
      = total_mass grid_c8w grid_c8w.pheromone_to_food ∧
    total_mass (grid_c8w.diffuse_pheromones cfg0)
        (grid_c8w.diffuse_pheromones cfg0).pheromone_to_nest
      = total_mass grid_c8w grid_c8w.pheromone_to_nest :=
  claim8_amended cfg0 grid_c8w
    (by
      intro c r hin hob hv0 d hd
      by_cases hc : c = 2 ∧ r = 2
      · rcases hc with ⟨rfl, rfl⟩
        fin_cases hd <;> exact ⟨by decide, rfl⟩
      · exact absurd (by simp [grid_c8w, hc]) hv0)
    (fun c r _ _ hv0 => absurd rfl hv0)

end AntSim
